import Mathlib

/-!
Shallow embedding of the dataswap-shed chunked proof-submission engine.

The definitions below are translated from the TypeScript sources:
* `src/dataset/proof/repo/index.ts` — the submission coordinator,
  window-advancer loop (`handlerSubmitDatasetProof`), root committer
  (`handlerSubmitDatasetProofRoot`) and eligibility checks;
* the dataset proof types module (`DatasetProofSubmitInfo`,
  `DatasetProof`, `DatasetChallengeProof`);
* the shared utils module (`FileLock`, `handleEvmError`).

The remote ledger (`context.evm.datasetProof`, `context.evm.datasetChallenge`)
is an external collaborator; it is embedded as a record of operations over an
abstract state type `σ`, each returning `Except String (result × σ)` to mirror
`handleEvmError`, which rethrows any non-ok result.  The filesystem used by
`FileLock` is embedded as a set of existing paths plus a predicate saying which
paths can be written (`fs.writeFileSync` succeeds or throws for reasons other
than existence: Node's default flag "w" truncates an existing file rather than
failing, while `fs.unlinkSync` throws when the path does not exist).
-/

namespace DataswapShed

/-- The `DataType` enum of the external SDK (`Source`/`MappingFiles`). -/
inductive DataType where
  | Source
  | MappingFiles
deriving DecidableEq, Repr

/-- Modelled from the spec: the sentinel "zero address" denoting an absent
root-commitment submitter; the constant lives in `shared/constant`, which is
not among the provided sources. -/
def defaultEthAddress : String := "0x0000000000000000000000000000000000000000"

/-- Modelled from the spec: the fixed confirmation-depth constant
("chain success interval") from `shared/constant`, which is not among the
provided sources.  No claim depends on its numeric value. -/
def chainSuccessInterval : Nat := 6

/-- JavaScript `Array.prototype.slice(start, stop)` for in-range `Nat`
arguments: the elements at indices `start ≤ i < stop` (clamped to the array
length). -/
def jsSlice (xs : List α) (start stop : Nat) : List α :=
  (xs.drop start).take (stop - start)

/-- `DatasetProof` — the proof artifact: root plus the ordered leaf
hash/size sequence. -/
structure DatasetProof where
  Root : String
  LeafHashes : List String
  LeafSizes : List Nat
deriving DecidableEq, Repr

/-- `DatasetProofSubmitInfo` — the mutable submission cursor. -/
structure DatasetProofSubmitInfo where
  datasetId : Nat
  dataType : DataType
  mappingFilesAccessMethod : String
  leafIndex : Nat
  leafHashes : List String
  leafSizes : List Nat
  chunk : Nat
  completed : Bool
deriving DecidableEq, Repr

/-- `DatasetProofSubmitInfo.updateleafIndex`: `this.leafIndex = leafIndex`. -/
def DatasetProofSubmitInfo.updateleafIndex
    (info : DatasetProofSubmitInfo) (leafIndex : Nat) : DatasetProofSubmitInfo :=
  { info with leafIndex := leafIndex }

/-- `DatasetProofSubmitInfo.updateDatasetProof`: if
`leafIndex + chunk >= LeafHashes.length` slice to the end and set
`completed = true`, else slice the next `chunk` leaves (leaving `completed`
unchanged). -/
def DatasetProofSubmitInfo.updateDatasetProof
    (info : DatasetProofSubmitInfo) (dp : DatasetProof) : DatasetProofSubmitInfo :=
  if dp.LeafHashes.length ≤ info.leafIndex + info.chunk then
    { info with
      leafHashes := jsSlice dp.LeafHashes info.leafIndex dp.LeafHashes.length
      leafSizes := jsSlice dp.LeafSizes info.leafIndex dp.LeafSizes.length
      completed := true }
  else
    { info with
      leafHashes := jsSlice dp.LeafHashes info.leafIndex (info.leafIndex + info.chunk)
      leafSizes := jsSlice dp.LeafSizes info.leafIndex (info.leafIndex + info.chunk) }

/-- The filesystem visible to `FileLock`: the set of existing paths plus
which paths `fs.writeFileSync` can write (false models an I/O or permission
error; mere existence is *not* a write failure, since the default flag "w"
overwrites). -/
structure Fs where
  files : Finset String
  writeOk : String → Bool
  unlinkCalls : Nat

/-- `FileLock` — holds the lock-file path `<filePath>.lock`. -/
structure FileLock where
  lockFilePath : String

/-- The `FileLock` constructor: `this.lockFilePath = filePath + ".lock"`. -/
def FileLock.new (filePath : String) : FileLock :=
  { lockFilePath := filePath ++ ".lock" }

/-- `FileLock.acquireLock`: `fs.writeFileSync(this.lockFilePath, "")` inside
`try`/`catch`; returns true iff the write succeeded (an existing file is
truncated, not an error). -/
def FileLock.acquireLock (l : FileLock) (fs : Fs) : Bool × Fs :=
  if fs.writeOk l.lockFilePath then
    (true, { fs with files := insert l.lockFilePath fs.files })
  else (false, fs)

/-- `FileLock.releaseLock`: `fs.unlinkSync(this.lockFilePath)`, which throws
(`ENOENT`) when the path does not exist.  `unlinkCalls` counts the unlink
invocations (attempted deletions), whether or not they throw. -/
def FileLock.releaseLock (l : FileLock) (fs : Fs) : Except String Unit × Fs :=
  if l.lockFilePath ∈ fs.files then
    (.ok (),
      { fs with
        files := fs.files.erase l.lockFilePath
        unlinkCalls := fs.unlinkCalls + 1 })
  else
    (.error "ENOENT", { fs with unlinkCalls := fs.unlinkCalls + 1 })

/-- A transaction receipt (`tx.height` is all the engine reads from it). -/
structure Tx where
  height : Nat
deriving DecidableEq, Repr

/-- The argument tuple of one `submitDatasetProof` chunk transaction. -/
structure ChunkTx where
  datasetId : Nat
  dataType : DataType
  leafHashes : List String
  leafIndex : Nat
  leafSizes : List Nat
  completed : Bool
deriving DecidableEq, Repr

/-- The argument tuple of one `submitDatasetProofRoot` transaction. -/
structure RootTx where
  datasetId : Nat
  dataType : DataType
  mappingFilesAccessMethod : String
  root : String
deriving DecidableEq, Repr

/-- The `context.evm.datasetProof` ledger handle, as a record of operations
over an abstract ledger state `σ`.  Each operation goes through
`handleEvmError`, which rethrows any non-ok result, hence the
`Except String` results. -/
structure DatasetProofEvm (σ : Type) where
  isDatasetProofallCompleted : σ → Nat → DataType → Except String (Bool × σ)
  getDatasetProofSubmitter : σ → Nat → Except String (String × σ)
  submitDatasetProofRoot : σ → RootTx → Except String (Tx × σ)
  submitDatasetProof : σ → ChunkTx → Except String (Tx × σ)
  waitForBlockHeight : σ → Nat → Except String σ
  getDatasetProofCount : σ → Nat → DataType → Except String (Nat × σ)

/-- The chunk transaction that one loop iteration submits, built from the
current cursor (after `updateDatasetProof`). -/
def mkChunkTx (info : DatasetProofSubmitInfo) : ChunkTx :=
  { datasetId := info.datasetId
    dataType := info.dataType
    leafHashes := info.leafHashes
    leafIndex := info.leafIndex
    leafSizes := info.leafSizes
    completed := info.completed }

/-- The root transaction that `handlerSubmitDatasetProofRoot` submits. -/
def mkRootTx (info : DatasetProofSubmitInfo) (dp : DatasetProof) : RootTx :=
  { datasetId := info.datasetId
    dataType := info.dataType
    mappingFilesAccessMethod := info.mappingFilesAccessMethod
    root := dp.Root }

/-- `handlerSubmitDatasetProofRoot`: read the submitter of the target; if it
is the default address, submit the root transaction, wait for the
confirmation interval, re-read the submitter, and fail if it is still the
default address; otherwise the root was already submitted and nothing is
done.  The returned list collects the root transactions submitted to the
ledger. -/
def handlerSubmitDatasetProofRoot (evm : DatasetProofEvm σ)
    (info : DatasetProofSubmitInfo) (dp : DatasetProof) (s : σ) :
    Except String (Bool × σ × List RootTx) :=
  match evm.getDatasetProofSubmitter s info.datasetId with
  | .error e => .error e
  | .ok (submitter, s) =>
    if submitter = defaultEthAddress then
      match evm.submitDatasetProofRoot s (mkRootTx info dp) with
      | .error e => .error e
      | .ok (tx, s) =>
        match evm.waitForBlockHeight s (tx.height + chainSuccessInterval) with
        | .error e => .error e
        | .ok s =>
          match evm.getDatasetProofSubmitter s info.datasetId with
          | .error e => .error e
          | .ok (submitter2, s) =>
            if submitter2 = defaultEthAddress then
              .ok (false, s, [mkRootTx info dp])
            else
              .ok (true, s, [mkRootTx info dp])
    else
      .ok (true, s, [])

/-- The `while (!options.submitInfo.completed)` loop of
`handlerSubmitDatasetProof`, with explicit fuel (the source loop need not
terminate, e.g. with `chunk = 0`): slice the next window with
`updateDatasetProof`, submit it, wait for the confirmation interval, re-read
the ledger counter, compare it with
`min(leafIndex + chunk, LeafHashes.length)`, abort with `false` on mismatch
and advance the cursor with `updateleafIndex` on match.  The returned list
collects the chunk transactions submitted to the ledger, in order. -/
def handlerLoop (evm : DatasetProofEvm σ) (dp : DatasetProof) :
    Nat → DatasetProofSubmitInfo → σ →
    Except String (Bool × DatasetProofSubmitInfo × σ × List ChunkTx)
  | 0, info, s => if info.completed then .ok (true, info, s, []) else .error "fuel"
  | fuel + 1, info, s =>
    if info.completed then .ok (true, info, s, [])
    else
      let info1 := info.updateDatasetProof dp
      match evm.submitDatasetProof s (mkChunkTx info1) with
      | .error e => .error e
      | .ok (tx, s1) =>
        match evm.waitForBlockHeight s1 (tx.height + chainSuccessInterval) with
        | .error e => .error e
        | .ok s2 =>
          match evm.getDatasetProofCount s2 info1.datasetId info1.dataType with
          | .error e => .error e
          | .ok (index, s3) =>
            let current := min (info1.leafIndex + info1.chunk) dp.LeafHashes.length
            if index ≠ current then
              .ok (false, info1, s3, [mkChunkTx info1])
            else
              match handlerLoop evm dp fuel (info1.updateleafIndex index) s3 with
              | .error e => .error e
              | .ok (b, info2, s4, txs) => .ok (b, info2, s4, mkChunkTx info1 :: txs)

/-- `handlerSubmitDatasetProof`: run the root committer, read the
authoritative leaf counter from the ledger, reset the cursor to it with
`updateleafIndex`, then run the window loop.

Note on the root-committer guard: the source reads
`if (!handlerSubmitDatasetProofRoot(options))` *without* `await`; a `Promise`
is truthy, so the guard never aborts regardless of the committer's boolean
result.  The committer's ledger effects are modelled as completing before the
counter read (one admissible event-loop interleaving); its boolean result is
discarded, exactly as in the source. -/
def handlerSubmitDatasetProof (evm : DatasetProofEvm σ)
    (info : DatasetProofSubmitInfo) (dp : DatasetProof) (s : σ) (fuel : Nat) :
    Except String (Bool × DatasetProofSubmitInfo × σ × List RootTx × List ChunkTx) :=
  match handlerSubmitDatasetProofRoot evm info dp s with
  | .error e => .error e
  | .ok (_rootOk, s, rootTxs) =>
    match evm.getDatasetProofCount s info.datasetId info.dataType with
    | .error e => .error e
    | .ok (index, s) =>
      match handlerLoop evm dp fuel (info.updateleafIndex index) s with
      | .error e => .error e
      | .ok (b, info2, s2, chunkTxs) => .ok (b, info2, s2, rootTxs, chunkTxs)

/-- The numeric-enum rendering `String(dataType)` used to build the lock key;
the SDK's `DataType` is a numeric enum.  No claim depends on the exact
strings. -/
def DataType.str : DataType → String
  | .Source => "0"
  | .MappingFiles => "1"

/-- The `DatasetProofSubmitInfo` constructor as invoked by
`submitDatasetProof`: the given identifiers plus
`completed = false`, `leafIndex = 0`, empty `leafHashes`/`leafSizes`. -/
def DatasetProofSubmitInfo.new (datasetId : Nat) (dataType : DataType)
    (mappingFilesAccessMethod : String) (chunk : Nat) : DatasetProofSubmitInfo :=
  { datasetId := datasetId
    dataType := dataType
    mappingFilesAccessMethod := mappingFilesAccessMethod
    leafIndex := 0
    leafHashes := []
    leafSizes := []
    chunk := chunk
    completed := false }

/-- `checkSubmissionProofsCriteria`: the criteria fail (false) exactly when
the ledger reports all dataset proofs already completed. -/
def checkSubmissionProofsCriteria (evm : DatasetProofEvm σ) (s : σ)
    (datasetId : Nat) (dataType : DataType) : Except String (Bool × σ) :=
  match evm.isDatasetProofallCompleted s datasetId dataType with
  | .error e => .error e
  | .ok (allCompleted, s) => .ok (!allCompleted, s)

/-- The argument tuple of one `submitDatasetChallengeProofs` transaction. -/
structure ChallengeTx where
  datasetId : Nat
  randomSeed : Int
  leaves : List String
  siblings : List (List String)
  paths : List Int
deriving DecidableEq, Repr

/-- The parsed challenge-proof artifact file. -/
structure DatasetChallengeProof where
  DatasetId : Nat
  RandomSeed : Int
  Leaves : List String
  Siblings : List (List String)
  Paths : List Int
deriving DecidableEq, Repr

/-- The `context.evm.datasetChallenge` ledger handle. -/
structure DatasetChallengeEvm (σ : Type) where
  isDatasetChallengeProofDuplicate : σ → Nat → String → Int → Except String (Bool × σ)
  isWinner : σ → Nat → String → Except String (Bool × σ)
  submitDatasetChallengeProofs : σ → ChallengeTx → Except String (Tx × σ)

/-- The challenge transaction submitted by `submitDatasetChallengeProofs`,
built from the artifact's own fields. -/
def mkChallengeTx (artifact : DatasetChallengeProof) : ChallengeTx :=
  { datasetId := artifact.DatasetId
    randomSeed := artifact.RandomSeed
    leaves := artifact.Leaves
    siblings := artifact.Siblings
    paths := artifact.Paths }

/-- `checkSubmissionChallengeProofsCriteria`: false when the ledger records
the (datasetId, auditor, randomSeed) tuple as already submitted; otherwise
false when the auditor is not the winner; otherwise true.  The winner query
is only evaluated when the duplicate query answered false. -/
def checkSubmissionChallengeProofsCriteria (evm : DatasetChallengeEvm σ)
    (s : σ) (datasetId : Nat) (auditor : String) (randomSeed : Int) :
    Except String (Bool × σ) :=
  match evm.isDatasetChallengeProofDuplicate s datasetId auditor randomSeed with
  | .error e => .error e
  | .ok (true, s) => .ok (false, s)
  | .ok (false, s) =>
    match evm.isWinner s datasetId auditor with
    | .error e => .error e
    | .ok (winner, s) => .ok (winner, s)

/-- Everything observable about one coordinator call of
`submitDatasetProof`: its result (or thrown error), the final filesystem,
the final ledger state, and the ledger mutations (root and chunk
transactions) it performed.  On a thrown ledger error the ledger state and
traces report the point before the failing call. -/
structure ProofCoordOutcome (σ : Type) where
  result : Except String Bool
  fs : Fs
  ledger : σ
  rootTxs : List RootTx
  chunkTxs : List ChunkTx

/-- `submitDatasetProof`: build the `<datasetId><dataType>.lock` file lock,
attempt acquisition (failure only logs), then inside `try`: construct the
cursor, check the submission criteria (returning success when they fail,
i.e. when the ledger reports the proofs complete), parse the proof artifact
(modelled as the argument `dp`), and run `handlerSubmitDatasetProof`;
`finally`: `releaseLock`, whose own thrown error replaces the body's
outcome. -/
def submitDatasetProof (evm : DatasetProofEvm σ) (fs0 : Fs)
    (datasetId : Nat) (dataType : DataType) (mappingFilesAccessMethod : String)
    (dp : DatasetProof) (chunk : Nat) (s : σ) (fuel : Nat) :
    ProofCoordOutcome σ :=
  let lock := FileLock.new (toString datasetId ++ dataType.str)
  let fs1 := (lock.acquireLock fs0).2
  let body : Except String Bool × σ × List RootTx × List ChunkTx :=
    let info := DatasetProofSubmitInfo.new datasetId dataType
      mappingFilesAccessMethod chunk
    match checkSubmissionProofsCriteria evm s datasetId dataType with
    | .error e => (.error e, s, [], [])
    | .ok (criteria, s1) =>
      if criteria then
        match handlerSubmitDatasetProof evm info dp s1 fuel with
        | .error e => (.error e, s1, [], [])
        | .ok (b, _info2, s2, rootTxs, chunkTxs) => (.ok b, s2, rootTxs, chunkTxs)
      else
        (.ok true, s1, [], [])
  let rl := lock.releaseLock fs1
  { result := match rl.1 with | .ok _ => body.1 | .error e => .error e
    fs := rl.2
    ledger := body.2.1
    rootTxs := body.2.2.1
    chunkTxs := body.2.2.2 }

/-- Everything observable about one coordinator call of
`submitDatasetChallengeProofs`. -/
structure ChallengeCoordOutcome (σ : Type) where
  result : Except String Bool
  fs : Fs
  ledger : σ
  challengeTxs : List ChallengeTx

/-- `submitDatasetChallengeProofs`: build the `<datasetId><path>.lock` file
lock, attempt acquisition (failure only logs), then inside `try`: parse the
challenge artifact (modelled as the argument `artifact`), check the challenge
criteria (returning false when they fail), and submit the challenge
transaction, returning true; `finally`: `releaseLock`, whose own thrown
error replaces the body's outcome.  `account` is the submitter identity
(`context.account`). -/
def submitDatasetChallengeProofs (evm : DatasetChallengeEvm σ) (fs0 : Fs)
    (datasetId : Nat) (path : String) (account : String)
    (artifact : DatasetChallengeProof) (s : σ) : ChallengeCoordOutcome σ :=
  let lock := FileLock.new (toString datasetId ++ path)
  let fs1 := (lock.acquireLock fs0).2
  let body : Except String Bool × σ × List ChallengeTx :=
    match checkSubmissionChallengeProofsCriteria evm s datasetId account
        artifact.RandomSeed with
    | .error e => (.error e, s, [])
    | .ok (criteria, s1) =>
      if criteria then
        match evm.submitDatasetChallengeProofs s1 (mkChallengeTx artifact) with
        | .error e => (.error e, s1, [])
        | .ok (_tx, s2) => (.ok true, s2, [mkChallengeTx artifact])
      else
        (.ok false, s1, [])
  let rl := lock.releaseLock fs1
  { result := match rl.1 with | .ok _ => body.1 | .error e => .error e
    fs := rl.2
    ledger := body.2.1
    challengeTxs := body.2.2 }

/-! ## Helper lemmas -/

@[simp] lemma updateleafIndex_leafIndex (info : DatasetProofSubmitInfo) (i : Nat) :
    (info.updateleafIndex i).leafIndex = i := rfl

@[simp] lemma updateleafIndex_completed (info : DatasetProofSubmitInfo) (i : Nat) :
    (info.updateleafIndex i).completed = info.completed := rfl

@[simp] lemma updateleafIndex_chunk (info : DatasetProofSubmitInfo) (i : Nat) :
    (info.updateleafIndex i).chunk = info.chunk := rfl

@[simp] lemma updateleafIndex_datasetId (info : DatasetProofSubmitInfo) (i : Nat) :
    (info.updateleafIndex i).datasetId = info.datasetId := rfl

@[simp] lemma updateleafIndex_dataType (info : DatasetProofSubmitInfo) (i : Nat) :
    (info.updateleafIndex i).dataType = info.dataType := rfl

@[simp] lemma updateDatasetProof_leafIndex (info : DatasetProofSubmitInfo) (dp : DatasetProof) :
    (info.updateDatasetProof dp).leafIndex = info.leafIndex := by
  unfold DatasetProofSubmitInfo.updateDatasetProof; split <;> rfl

@[simp] lemma updateDatasetProof_chunk (info : DatasetProofSubmitInfo) (dp : DatasetProof) :
    (info.updateDatasetProof dp).chunk = info.chunk := by
  unfold DatasetProofSubmitInfo.updateDatasetProof; split <;> rfl

@[simp] lemma updateDatasetProof_datasetId (info : DatasetProofSubmitInfo) (dp : DatasetProof) :
    (info.updateDatasetProof dp).datasetId = info.datasetId := by
  unfold DatasetProofSubmitInfo.updateDatasetProof; split <;> rfl

@[simp] lemma updateDatasetProof_dataType (info : DatasetProofSubmitInfo) (dp : DatasetProof) :
    (info.updateDatasetProof dp).dataType = info.dataType := by
  unfold DatasetProofSubmitInfo.updateDatasetProof; split <;> rfl

lemma updateDatasetProof_completed (info : DatasetProofSubmitInfo) (dp : DatasetProof) :
    (info.updateDatasetProof dp).completed
      = (info.completed || decide (dp.LeafHashes.length ≤ info.leafIndex + info.chunk)) := by
  unfold DatasetProofSubmitInfo.updateDatasetProof; split <;> simp_all

/-- `updateleafIndex` on an explicit cursor. -/
lemma updateleafIndex_mk (d : Nat) (t : DataType) (m : String) (p : Nat)
    (lh : List String) (ls : List Nat) (c : Nat) (b : Bool) (i : Nat) :
    DatasetProofSubmitInfo.updateleafIndex ⟨d, t, m, p, lh, ls, c, b⟩ i
      = ⟨d, t, m, i, lh, ls, c, b⟩ := rfl

/-- `updateDatasetProof` on an explicit cursor. -/
lemma updateDatasetProof_mk (d : Nat) (t : DataType) (m : String) (p : Nat)
    (lh : List String) (ls : List Nat) (c : Nat) (b : Bool) (dp : DatasetProof) :
    DatasetProofSubmitInfo.updateDatasetProof ⟨d, t, m, p, lh, ls, c, b⟩ dp
      = if dp.LeafHashes.length ≤ p + c then
          ⟨d, t, m, p, jsSlice dp.LeafHashes p dp.LeafHashes.length,
            jsSlice dp.LeafSizes p dp.LeafSizes.length, c, true⟩
        else
          ⟨d, t, m, p, jsSlice dp.LeafHashes p (p + c),
            jsSlice dp.LeafSizes p (p + c), c, b⟩ := by
  unfold DatasetProofSubmitInfo.updateDatasetProof; split <;> rfl

/-- A cursor already marked completed makes the loop exit at once, at any
fuel. -/
lemma handlerLoop_completed (evm : DatasetProofEvm σ) (dp : DatasetProof)
    (fuel : Nat) (info : DatasetProofSubmitInfo) (s : σ)
    (h : info.completed = true) :
    handlerLoop evm dp fuel info s = .ok (true, info, s, []) := by
  cases fuel <;> simp [handlerLoop, h]

/-- A well-behaved ledger: its state is the authoritative leaf counter,
`submitDatasetProof` appends the chunk's leaves (advancing the counter by
the chunk length), the counter read answers the state, and the root was
already committed (`getDatasetProofSubmitter` answers a non-default
address). -/
def goodProofEvm : DatasetProofEvm Nat :=
  { isDatasetProofallCompleted := fun s _ _ => .ok (false, s)
    getDatasetProofSubmitter := fun s _ => .ok ("0xgood", s)
    submitDatasetProofRoot := fun s _ => .ok (⟨0⟩, s)
    submitDatasetProof := fun s tx => .ok (⟨0⟩, s + tx.leafHashes.length)
    waitForBlockHeight := fun s _ => .ok s
    getDatasetProofCount := fun s _ _ => .ok (s, s) }

/-- The chunk transaction covering the window `[q, min (q + W) N)` of the
sequence, with the completed flag set exactly on the final window. -/
def goodChunk (dp : DatasetProof) (d : Nat) (t : DataType) (W q : Nat) : ChunkTx :=
  { datasetId := d
    dataType := t
    leafHashes := jsSlice dp.LeafHashes q (min (q + W) dp.LeafHashes.length)
    leafIndex := q
    leafSizes := jsSlice dp.LeafSizes q (min (q + W) dp.LeafHashes.length)
    completed := decide (dp.LeafHashes.length ≤ q + W) }

/-- The expected chunk-transaction trace of a run that starts at position
`p`: `⌈(N − p) / W⌉` windows, the `j`-th starting at `p + j·W`. -/
def goodTrace (dp : DatasetProof) (d : Nat) (t : DataType) (W p : Nat) : List ChunkTx :=
  (List.range ((dp.LeafHashes.length - p + W - 1) / W)).map
    (fun j => goodChunk dp d t W (p + j * W))

/-- Running the window loop against the well-behaved ledger from any
position `p < N` (cursor and counter in agreement) completes successfully,
leaves the counter and cursor at `N`, and submits exactly the expected
window trace `goodTrace`. -/
lemma handlerLoop_good (dp : DatasetProof)
    (hsz : dp.LeafSizes.length = dp.LeafHashes.length)
    (W : Nat) (hW : 0 < W) (fuel : Nat) :
    ∀ (d : Nat) (t : DataType) (m : String) (p : Nat)
      (lh : List String) (ls : List Nat),
      p < dp.LeafHashes.length →
      (dp.LeafHashes.length - p + W - 1) / W ≤ fuel →
      ∃ lh' ls',
        handlerLoop goodProofEvm dp fuel ⟨d, t, m, p, lh, ls, W, false⟩ p
          = .ok (true, ⟨d, t, m, dp.LeafHashes.length, lh', ls', W, true⟩,
              dp.LeafHashes.length, goodTrace dp d t W p) := by
  induction fuel with
  | zero =>
    intro d t m p lh ls hp hfuel
    exfalso
    have h1 : 1 ≤ (dp.LeafHashes.length - p + W - 1) / W :=
      (Nat.one_le_div_iff hW).mpr (by omega)
    omega
  | succ fuel ih =>
    intro d t m p lh ls hp hfuel
    by_cases hle : dp.LeafHashes.length ≤ p + W
    · -- final window: the slice runs to the end and `completed` is set
      refine ⟨jsSlice dp.LeafHashes p dp.LeafHashes.length,
        jsSlice dp.LeafSizes p dp.LeafSizes.length, ?_⟩
      have hlen : p + (jsSlice dp.LeafHashes p dp.LeafHashes.length).length
          = dp.LeafHashes.length := by
        simp [jsSlice]; omega
      have htr : goodTrace dp d t W p = [goodChunk dp d t W p] := by
        unfold goodTrace
        have hwone : (dp.LeafHashes.length - p + W - 1) / W = 1 := by
          have e : dp.LeafHashes.length - p + W - 1
              = (dp.LeafHashes.length - p - 1) + W := by omega
          rw [e, Nat.add_div_right _ hW, Nat.div_eq_of_lt (by omega)]
        rw [hwone]
        simp [List.range_succ]
      have hchunk : goodChunk dp d t W p
          = mkChunkTx ⟨d, t, m, p, jsSlice dp.LeafHashes p dp.LeafHashes.length,
              jsSlice dp.LeafSizes p dp.LeafSizes.length, W, true⟩ := by
        unfold goodChunk mkChunkTx
        simp [Nat.min_eq_right hle, hsz, hle]
      rw [htr, hchunk]
      simp only [handlerLoop, updateDatasetProof_mk, if_pos hle]
      simp only [goodProofEvm, mkChunkTx]
      simp only [hlen]
      rw [Nat.min_eq_right hle]
      simp only [updateleafIndex_mk]
      simp [handlerLoop_completed]
    · -- interior window: recurse from `p + W`
      push_neg at hle
      obtain ⟨lh', ls', hrec⟩ := ih d t m (p + W)
        (jsSlice dp.LeafHashes p (p + W)) (jsSlice dp.LeafSizes p (p + W))
        hle
        (by
          have e : dp.LeafHashes.length - p + W - 1
              = (dp.LeafHashes.length - (p + W) + W - 1) + W := by omega
          rw [e, Nat.add_div_right _ hW] at hfuel
          omega)
      refine ⟨lh', ls', ?_⟩
      have hlen : p + (jsSlice dp.LeafHashes p (p + W)).length = p + W := by
        simp [jsSlice]; omega
      have htr : goodTrace dp d t W p
          = goodChunk dp d t W p :: goodTrace dp d t W (p + W) := by
        unfold goodTrace
        have hk : (dp.LeafHashes.length - p + W - 1) / W
            = (dp.LeafHashes.length - (p + W) + W - 1) / W + 1 := by
          have e : dp.LeafHashes.length - p + W - 1
              = (dp.LeafHashes.length - (p + W) + W - 1) + W := by omega
          rw [e, Nat.add_div_right _ hW]
        rw [hk, List.range_succ_eq_map, List.map_cons, List.map_map]
        refine congrArg₂ List.cons (by simp) ?_
        refine List.map_congr_left ?_
        intro j _
        simp only [Function.comp]
        have e : p + (j + 1) * W = p + W + j * W := by ring
        rw [e]
      have hchunk : goodChunk dp d t W p
          = mkChunkTx ⟨d, t, m, p, jsSlice dp.LeafHashes p (p + W),
              jsSlice dp.LeafSizes p (p + W), W, false⟩ := by
        unfold goodChunk mkChunkTx
        simp [Nat.min_eq_left (le_of_lt hle), hle, Nat.not_le_of_lt hle]
      rw [htr, hchunk]
      have hcond : ¬ (dp.LeafHashes.length ≤ p + W) := by omega
      simp only [handlerLoop, updateDatasetProof_mk, if_neg hcond]
      simp only [goodProofEvm, mkChunkTx]
      simp only [hlen]
      rw [Nat.min_eq_left (le_of_lt hle)]
      simp only [updateleafIndex_mk]
      simp only [goodProofEvm] at hrec
      simp [hrec]

/-- Ceiling division `⌈N / W⌉ = (N + W - 1) / W` compared with a bound. -/
lemma ceil_div_le_iff (N W i : Nat) (hW : 0 < W) :
    (N + W - 1) / W ≤ i ↔ N ≤ W * i := by
  rw [Nat.div_le_iff_le_mul_add_pred hW]
  generalize W * i = x
  omega

/-- The window loop never reads the `leafHashes`/`leafSizes` carried by a
non-completed cursor: its first iteration overwrites them from the
artifact. -/
lemma handlerLoop_ignores_slices (evm : DatasetProofEvm σ) (dp : DatasetProof)
    (fuel d c : Nat) (t : DataType) (m : String) (p : Nat)
    (lh₁ lh₂ : List String) (ls₁ ls₂ : List Nat) (s : σ) :
    handlerLoop evm dp fuel ⟨d, t, m, p, lh₁, ls₁, c, false⟩ s
      = handlerLoop evm dp fuel ⟨d, t, m, p, lh₂, ls₂, c, false⟩ s := by
  cases fuel with
  | zero => rfl
  | succ fuel =>
    have hupd : DatasetProofSubmitInfo.updateDatasetProof ⟨d, t, m, p, lh₁, ls₁, c, false⟩ dp
        = DatasetProofSubmitInfo.updateDatasetProof ⟨d, t, m, p, lh₂, ls₂, c, false⟩ dp := by
      rw [updateDatasetProof_mk, updateDatasetProof_mk]
    simp only [handlerLoop, hupd]
    simp

/-- Running the full handler against the well-behaved ledger from any
counter value `p < N`: the run starts at `p` (read back from the ledger),
succeeds, and submits exactly the windows from `p` on. -/
lemma handlerSubmitDatasetProof_good (dp : DatasetProof)
    (hsz : dp.LeafSizes.length = dp.LeafHashes.length)
    (c : Nat) (hW : 0 < c) (fuel d : Nat) (t : DataType) (m : String) (p : Nat)
    (hp : p < dp.LeafHashes.length)
    (hfuel : (dp.LeafHashes.length - p + c - 1) / c ≤ fuel) :
    ∃ lh' ls',
      handlerSubmitDatasetProof goodProofEvm (DatasetProofSubmitInfo.new d t m c)
          dp p fuel
        = .ok (true, ⟨d, t, m, dp.LeafHashes.length, lh', ls', c, true⟩,
            dp.LeafHashes.length, [], goodTrace dp d t c p) := by
  obtain ⟨lh', ls', hrun⟩ :=
    handlerLoop_good dp hsz c hW fuel d t m p [] [] hp hfuel
  refine ⟨lh', ls', ?_⟩
  have hne : ("0xgood" : String) ≠ defaultEthAddress := by decide
  simp only [handlerSubmitDatasetProof, handlerSubmitDatasetProofRoot,
    goodProofEvm, if_neg hne]
  simp only [DatasetProofSubmitInfo.new, updateleafIndex_mk]
  simp only [goodProofEvm] at hrun
  simp [hrun]

/-- A concrete ten-leaf proof artifact, for witnesses. -/
def dpTen : DatasetProof :=
  { Root := "r", LeafHashes := List.replicate 10 "h", LeafSizes := List.replicate 10 1 }

/-! ## Theorems -/

/-- C6, counterexample: with the marker `k.lock` already existing and the
filesystem otherwise healthy, `acquireLock` returns `true`, not `false` as
the claim requires: `fs.writeFileSync` with the default flag truncates an
existing file instead of failing, so prior existence of the marker does not
make acquisition fail. -/
theorem C6_counterexample :
    "k.lock" ∈ (Fs.mk {"k.lock"} (fun _ => true) 0).files ∧
    ((FileLock.new "k").acquireLock (Fs.mk {"k.lock"} (fun _ => true) 0)).1 = true := by
  constructor
  · decide
  · rfl

/-- C6, amended: `acquireLock` creates (or truncates) the marker file
`<key>.lock` and returns true iff the filesystem write succeeded; prior
existence of the marker does not cause failure, so after a successful
acquire the marker exists, but acquire can succeed even when the marker
already existed. -/
theorem C6_acquireLock_iff_write (fs : Fs) (filePath : String) :
    ((FileLock.new filePath).acquireLock fs).1 = fs.writeOk (filePath ++ ".lock")
    ∧ ((filePath ++ ".lock") ∈ ((FileLock.new filePath).acquireLock fs).2.files
        ↔ (fs.writeOk (filePath ++ ".lock") = true
            ∨ (filePath ++ ".lock") ∈ fs.files)) := by
  unfold FileLock.new FileLock.acquireLock
  cases h : fs.writeOk (filePath ++ ".lock") <;> simp [h]

/-- C9, counterexample: the cursor `⟨leafIndex 8, chunk 4, completed false⟩`
satisfies the claimed invariant against a 10-leaf sequence, yet
`updateDatasetProof` turns `completed` on while leaving the position at 8,
so afterwards `completed = true` but `position ≠ len(LeafSequence)`. -/
theorem C9_counterexample :
    ((8 : Nat) ≤ (DatasetProof.mk "r" (List.replicate 10 "h") (List.replicate 10 1)).LeafHashes.length
      ∧ ((DatasetProofSubmitInfo.mk 1 .Source "" 8 [] [] 4 false).completed = true
            ↔ (8 : Nat) = (DatasetProof.mk "r" (List.replicate 10 "h") (List.replicate 10 1)).LeafHashes.length))
    ∧ ((DatasetProofSubmitInfo.mk 1 .Source "" 8 [] [] 4 false).updateDatasetProof
        (DatasetProof.mk "r" (List.replicate 10 "h") (List.replicate 10 1))).completed = true
    ∧ ((DatasetProofSubmitInfo.mk 1 .Source "" 8 [] [] 4 false).updateDatasetProof
        (DatasetProof.mk "r" (List.replicate 10 "h") (List.replicate 10 1))).leafIndex = 8
    ∧ (DatasetProof.mk "r" (List.replicate 10 "h") (List.replicate 10 1)).LeafHashes.length = 10 := by
  refine ⟨⟨by decide, by decide⟩, ?_, ?_, by decide⟩
  · rfl
  · rfl

/-- C9, amended: initialization sets `position = 0` and `completed = false`;
`updateleafIndex` sets the position to its argument (so the bound
`position ≤ len` is preserved exactly when the caller passes an in-range
value) and leaves `completed` unchanged; `updateDatasetProof` leaves the
position unchanged and turns `completed` on exactly when the in-flight
window reaches the end of the sequence (`position + chunk ≥ len`) — hence
`completed = true` can hold while `position < len`, and the claimed
biconditional `completed ⇔ position = len` is not preserved. -/
theorem C9_cursor_operations (info : DatasetProofSubmitInfo)
    (dp : DatasetProof) (i d c : Nat) (t : DataType) (m : String) :
    (info.updateleafIndex i).leafIndex = i
    ∧ (info.updateleafIndex i).completed = info.completed
    ∧ (info.updateDatasetProof dp).leafIndex = info.leafIndex
    ∧ (info.updateDatasetProof dp).chunk = info.chunk
    ∧ ((info.updateDatasetProof dp).completed
        = (info.completed || decide (dp.LeafHashes.length ≤ info.leafIndex + info.chunk)))
    ∧ (DatasetProofSubmitInfo.new d t m c).leafIndex = 0
    ∧ (DatasetProofSubmitInfo.new d t m c).completed = false := by
  refine ⟨rfl, rfl, ?_, ?_, ?_, rfl, rfl⟩ <;>
    · unfold DatasetProofSubmitInfo.updateDatasetProof
      split <;> simp_all

/-- A ledger whose counter read always answers a fixed value `n` and whose
other operations succeed without effect; used to exhibit a counter/window
mismatch. -/
def mismatchEvm (n : Nat) : DatasetProofEvm Unit :=
  { isDatasetProofallCompleted := fun s _ _ => .ok (false, s)
    getDatasetProofSubmitter := fun s _ => .ok ("w", s)
    submitDatasetProofRoot := fun s _ => .ok (⟨0⟩, s)
    submitDatasetProof := fun s _ => .ok (⟨0⟩, s)
    waitForBlockHeight := fun s _ => .ok s
    getDatasetProofCount := fun s _ _ => .ok (n, s) }

/-- C1: one iteration of the window loop from a non-completed cursor, with
the submit/wait/re-read calls succeeding.  If the freshly read counter
differs from `min(position + windowSize, len(sequence))`, the loop returns
`false` at once and the run's chunk-transaction trace is exactly the single
chunk of this iteration — no further chunk is submitted; if it equals that
value, the cursor is set to it with `updateleafIndex` and the loop
continues on the remaining fuel, with this iteration's chunk prepended to
the trace. -/
theorem C1_window_mismatch_aborts {σ : Type} (evm : DatasetProofEvm σ)
    (dp : DatasetProof) (info : DatasetProofSubmitInfo) (s s1 s2 s3 : σ)
    (tx : Tx) (index fuel : Nat)
    (hnc : info.completed = false)
    (hsub : evm.submitDatasetProof s (mkChunkTx (info.updateDatasetProof dp))
      = .ok (tx, s1))
    (hwait : evm.waitForBlockHeight s1 (tx.height + chainSuccessInterval) = .ok s2)
    (hcount : evm.getDatasetProofCount s2 (info.updateDatasetProof dp).datasetId
      (info.updateDatasetProof dp).dataType = .ok (index, s3)) :
    (index ≠ min (info.leafIndex + info.chunk) dp.LeafHashes.length →
      handlerLoop evm dp (fuel + 1) info s
        = .ok (false, info.updateDatasetProof dp, s3,
            [mkChunkTx (info.updateDatasetProof dp)]))
    ∧ (index = min (info.leafIndex + info.chunk) dp.LeafHashes.length →
      handlerLoop evm dp (fuel + 1) info s
        = match handlerLoop evm dp fuel
              ((info.updateDatasetProof dp).updateleafIndex index) s3 with
          | .error e => .error e
          | .ok (b, i2, s4, txs) =>
              .ok (b, i2, s4, mkChunkTx (info.updateDatasetProof dp) :: txs)) := by
  have hcount' : evm.getDatasetProofCount s2 info.datasetId info.dataType
      = .ok (index, s3) := by simpa using hcount
  constructor <;> intro h <;>
    simp [handlerLoop, hnc, hsub, hwait, hcount', h]

/-- C1, witness at a concrete input: two leaves, window size 1, a ledger
that reports counter 5 after confirmation (≠ expected window end 1): the
loop returns `false` with exactly the one submitted chunk. -/
theorem C1_window_mismatch_aborts_witness :
    handlerLoop (mismatchEvm 5) (DatasetProof.mk "r" ["a", "b"] [1, 1]) 3
        (DatasetProofSubmitInfo.new 1 .Source "" 1) ()
      = .ok (false,
          (DatasetProofSubmitInfo.new 1 .Source "" 1).updateDatasetProof
            (DatasetProof.mk "r" ["a", "b"] [1, 1]), (),
          [mkChunkTx ((DatasetProofSubmitInfo.new 1 .Source "" 1).updateDatasetProof
            (DatasetProof.mk "r" ["a", "b"] [1, 1]))]) :=
  (C1_window_mismatch_aborts (mismatchEvm 5) _ _ () () () () ⟨0⟩ 5 2
    rfl rfl rfl rfl).1 (by decide)

/-- C2: against the well-behaved ledger starting at counter 0, the advancer
run on a non-empty sequence of `N` leaves with window size `c ≥ 1` succeeds
and submits exactly `⌈N / c⌉` chunk transactions; chunk `i` carries the
slice `[i·c, min((i+1)·c, N))` of the hashes and sizes with `leafIndex =
i·c`; its completed flag is true exactly on the last chunk; and the final
cursor position is `N`. -/
theorem C2_window_schedule (dp : DatasetProof) (d c : Nat) (t : DataType)
    (m : String) (fuel : Nat)
    (hsz : dp.LeafSizes.length = dp.LeafHashes.length)
    (hW : 0 < c) (hN : 0 < dp.LeafHashes.length)
    (hfuel : (dp.LeafHashes.length + c - 1) / c ≤ fuel) :
    ∃ fi : DatasetProofSubmitInfo,
      handlerSubmitDatasetProof goodProofEvm (DatasetProofSubmitInfo.new d t m c)
          dp 0 fuel
        = .ok (true, fi, dp.LeafHashes.length, [], goodTrace dp d t c 0)
      ∧ fi.leafIndex = dp.LeafHashes.length
      ∧ fi.completed = true
      ∧ (goodTrace dp d t c 0).length = (dp.LeafHashes.length + c - 1) / c
      ∧ (∀ i, ∀ hi : i < (goodTrace dp d t c 0).length,
          (goodTrace dp d t c 0).get ⟨i, hi⟩ = goodChunk dp d t c (i * c))
      ∧ (∀ i, ∀ hi : i < (goodTrace dp d t c 0).length,
          (((goodTrace dp d t c 0).get ⟨i, hi⟩).completed = true
            ↔ i + 1 = (goodTrace dp d t c 0).length)) := by
  obtain ⟨lh', ls', hrun⟩ :=
    handlerLoop_good dp hsz c hW fuel d t m 0 [] [] hN (by simpa using hfuel)
  have hlen0 : (goodTrace dp d t c 0).length
      = (dp.LeafHashes.length + c - 1) / c := by
    simp [goodTrace]
  refine ⟨⟨d, t, m, dp.LeafHashes.length, lh', ls', c, true⟩, ?_, rfl, rfl,
    hlen0, ?_, ?_⟩
  · have hne : ("0xgood" : String) ≠ defaultEthAddress := by decide
    simp only [handlerSubmitDatasetProof, handlerSubmitDatasetProofRoot,
      goodProofEvm, if_neg hne]
    simp only [DatasetProofSubmitInfo.new, updateleafIndex_mk]
    simp only [goodProofEvm] at hrun
    simp [hrun]
  · intro i hi
    simp [goodTrace, List.getElem_map, List.getElem_range]
  · intro i hi
    have hi' : i < (dp.LeafHashes.length + c - 1) / c := hlen0 ▸ hi
    have key : (((goodTrace dp d t c 0).get ⟨i, hi⟩).completed = true)
        ↔ dp.LeafHashes.length ≤ i * c + c := by
      simp [goodTrace, goodChunk, List.get_eq_getElem, List.getElem_map,
        List.getElem_range]
    rw [key, hlen0]
    have h2 : (dp.LeafHashes.length + c - 1) / c ≤ i + 1
        ↔ dp.LeafHashes.length ≤ i * c + c := by
      rw [ceil_div_le_iff _ _ _ hW, Nat.mul_succ, Nat.mul_comm c i]
    constructor
    · intro h
      have := h2.mpr h
      omega
    · intro h
      exact h2.mp (by omega)

/-- C2, witness: the concrete scenario `N = 10`, `W = 4` — three windows
`[0:4]`, `[4:8]`, `[8:10]`, completed flags false, false, true, final
position 10. -/
theorem C2_window_schedule_witness :
    ∃ fi : DatasetProofSubmitInfo,
      handlerSubmitDatasetProof goodProofEvm (DatasetProofSubmitInfo.new 1 .Source "" 4)
          dpTen 0 3
        = .ok (true, fi, dpTen.LeafHashes.length, [], goodTrace dpTen 1 .Source 4 0)
      ∧ fi.leafIndex = dpTen.LeafHashes.length
      ∧ fi.completed = true
      ∧ (goodTrace dpTen 1 .Source 4 0).length = (dpTen.LeafHashes.length + 4 - 1) / 4
      ∧ (∀ i, ∀ hi : i < (goodTrace dpTen 1 .Source 4 0).length,
          (goodTrace dpTen 1 .Source 4 0).get ⟨i, hi⟩ = goodChunk dpTen 1 .Source 4 (i * 4))
      ∧ (∀ i, ∀ hi : i < (goodTrace dpTen 1 .Source 4 0).length,
          (((goodTrace dpTen 1 .Source 4 0).get ⟨i, hi⟩).completed = true
            ↔ i + 1 = (goodTrace dpTen 1 .Source 4 0).length)) :=
  C2_window_schedule dpTen 1 4 .Source "" 3 (by decide) (by decide) (by decide)
    (by decide)

/-- C3: (1) the run of `handlerSubmitDatasetProof` is independent of the
cursor state it is handed — two initial cursors differing arbitrarily in
`leafIndex`, `leafHashes` and `leafSizes` produce identical runs, because
the starting position is re-derived from the ledger's counter; (2) on the
well-behaved ledger whose counter stands at `k·c` (k chunks already
confirmed), a fresh run resumes submitting at position `k·c`: its first
chunk transaction has `leafIndex = k·c`, and no submitted chunk starts
below `k·c` (chunk k is not re-submitted, and submission does not restart
from zero). -/
theorem C3_resume_from_ledger_counter {σ : Type} (evm : DatasetProofEvm σ)
    (dp : DatasetProof) (s : σ) (fuel d c : Nat) (t : DataType) (m : String)
    (p₁ p₂ : Nat) (lh₁ lh₂ : List String) (ls₁ ls₂ : List Nat) :
    (handlerSubmitDatasetProof evm ⟨d, t, m, p₁, lh₁, ls₁, c, false⟩ dp s fuel
      = handlerSubmitDatasetProof evm ⟨d, t, m, p₂, lh₂, ls₂, c, false⟩ dp s fuel)
    ∧ (∀ k : Nat,
        dp.LeafSizes.length = dp.LeafHashes.length → 0 < c →
        k * c < dp.LeafHashes.length →
        (dp.LeafHashes.length - k * c + c - 1) / c ≤ fuel →
        ∃ fi : DatasetProofSubmitInfo,
          handlerSubmitDatasetProof goodProofEvm
              (DatasetProofSubmitInfo.new d t m c) dp (k * c) fuel
            = .ok (true, fi, dp.LeafHashes.length, [],
                goodTrace dp d t c (k * c))
          ∧ (goodTrace dp d t c (k * c)).head?
              = some (goodChunk dp d t c (k * c))
          ∧ (∀ tx ∈ goodTrace dp d t c (k * c), k * c ≤ tx.leafIndex)) := by
  constructor
  · simp only [handlerSubmitDatasetProof]
    rw [show handlerSubmitDatasetProofRoot evm ⟨d, t, m, p₁, lh₁, ls₁, c, false⟩ dp s
        = handlerSubmitDatasetProofRoot evm ⟨d, t, m, p₂, lh₂, ls₂, c, false⟩ dp s
      from rfl]
    rcases handlerSubmitDatasetProofRoot evm ⟨d, t, m, p₂, lh₂, ls₂, c, false⟩ dp s
      with e | ⟨b, s', rootTxs⟩
    · rfl
    · dsimp only
      rcases evm.getDatasetProofCount s' d t with e | ⟨index, s''⟩
      · rfl
      · dsimp only
        rw [updateleafIndex_mk, updateleafIndex_mk,
          handlerLoop_ignores_slices evm dp fuel d c t m index lh₁ lh₂ ls₁ ls₂ s'']
  · intro k hsz hW hk hfuel
    obtain ⟨lh', ls', hrun⟩ :=
      handlerSubmitDatasetProof_good dp hsz c hW fuel d t m (k * c) hk hfuel
    refine ⟨_, hrun, ?_, ?_⟩
    · unfold goodTrace
      have hpos : 0 < (dp.LeafHashes.length - k * c + c - 1) / c :=
        (Nat.one_le_div_iff hW).mpr (by omega)
      obtain ⟨K, hK⟩ : ∃ K, (dp.LeafHashes.length - k * c + c - 1) / c = K + 1 :=
        ⟨(dp.LeafHashes.length - k * c + c - 1) / c - 1, by omega⟩
      rw [hK, List.range_succ_eq_map]
      simp
    · intro tx htx
      simp only [goodTrace, List.mem_map] at htx
      obtain ⟨j, _, rfl⟩ := htx
      exact Nat.le_add_right _ _

/-- C3, witness: a run handed a stale cursor (position 7 with leftover
slices) behaves identically to one handed a blank cursor; and with the
ledger counter at `1·4 = 4` after an interrupted run, a fresh run on the
ten-leaf artifact resumes at position 4, submitting no chunk below 4. -/
theorem C3_resume_from_ledger_counter_witness :
    (handlerSubmitDatasetProof goodProofEvm ⟨1, .Source, "", 7, ["x"], [9], 4, false⟩
        dpTen 0 3
      = handlerSubmitDatasetProof goodProofEvm ⟨1, .Source, "", 0, [], [], 4, false⟩
        dpTen 0 3)
    ∧ (∃ fi : DatasetProofSubmitInfo,
        handlerSubmitDatasetProof goodProofEvm
            (DatasetProofSubmitInfo.new 1 .Source "" 4) dpTen (1 * 4) 3
          = .ok (true, fi, dpTen.LeafHashes.length, [],
              goodTrace dpTen 1 .Source 4 (1 * 4))
        ∧ (goodTrace dpTen 1 .Source 4 (1 * 4)).head?
            = some (goodChunk dpTen 1 .Source 4 (1 * 4))
        ∧ (∀ tx ∈ goodTrace dpTen 1 .Source 4 (1 * 4), 1 * 4 ≤ tx.leafIndex)) :=
  ⟨(C3_resume_from_ledger_counter goodProofEvm dpTen 0 3 1 4 .Source "" 7 0
      ["x"] [] [9] []).1,
   (C3_resume_from_ledger_counter goodProofEvm dpTen 0 3 1 4 .Source "" 7 0
      ["x"] [] [9] []).2 1 (by decide) (by decide) (by decide) (by decide)⟩

/-- A well-behaved root ledger: its state is the current submitter address,
and a root-commitment transaction durably sets the submitter to `a`. -/
def rootGoodEvm (a : String) : DatasetProofEvm String :=
  { isDatasetProofallCompleted := fun s _ _ => .ok (false, s)
    getDatasetProofSubmitter := fun s _ => .ok (s, s)
    submitDatasetProofRoot := fun _ _ => .ok (⟨0⟩, a)
    submitDatasetProof := fun s _ => .ok (⟨0⟩, s)
    waitForBlockHeight := fun s _ => .ok s
    getDatasetProofCount := fun s _ _ => .ok (0, s) }

/-- A root ledger on which the commitment never takes: the submitter reads
back as the default address even after a successful transaction. -/
def rootFailEvm : DatasetProofEvm Unit :=
  { isDatasetProofallCompleted := fun s _ _ => .ok (false, s)
    getDatasetProofSubmitter := fun s _ => .ok (defaultEthAddress, s)
    submitDatasetProofRoot := fun s _ => .ok (⟨0⟩, s)
    submitDatasetProof := fun s _ => .ok (⟨0⟩, s)
    waitForBlockHeight := fun s _ => .ok s
    getDatasetProofCount := fun s _ _ => .ok (0, s) }

/-- C4: the root committer (1) when the queried submitter is not the
default address, performs no submission and returns success; (2) on a
well-behaved ledger, two sequential calls from an absent commitment submit
exactly one root transaction in total — the first call submits it and
succeeds, the second is a no-op returning success; (3) when the submitter
is the default address, it submits the root transaction, waits for the
confirmation interval, re-queries, and returns failure if the submitter
still reads back as the default address. -/
theorem C4_root_committer_idempotent {σ : Type} (evm : DatasetProofEvm σ)
    (info : DatasetProofSubmitInfo) (dp : DatasetProof) :
    (∀ (s s1 : σ) (sub : String),
      evm.getDatasetProofSubmitter s info.datasetId = .ok (sub, s1) →
      sub ≠ defaultEthAddress →
      handlerSubmitDatasetProofRoot evm info dp s = .ok (true, s1, []))
    ∧ (∀ a : String, a ≠ defaultEthAddress →
      handlerSubmitDatasetProofRoot (rootGoodEvm a) info dp defaultEthAddress
          = .ok (true, a, [mkRootTx info dp])
      ∧ handlerSubmitDatasetProofRoot (rootGoodEvm a) info dp a
          = .ok (true, a, []))
    ∧ (∀ (s s1 s2 s3 s4 : σ) (tx : Tx) (sub2 : String),
      evm.getDatasetProofSubmitter s info.datasetId = .ok (defaultEthAddress, s1) →
      evm.submitDatasetProofRoot s1 (mkRootTx info dp) = .ok (tx, s2) →
      evm.waitForBlockHeight s2 (tx.height + chainSuccessInterval) = .ok s3 →
      evm.getDatasetProofSubmitter s3 info.datasetId = .ok (sub2, s4) →
      sub2 = defaultEthAddress →
      handlerSubmitDatasetProofRoot evm info dp s = .ok (false, s4, [mkRootTx info dp])) := by
  refine ⟨?_, ?_, ?_⟩
  · intro s s1 sub h1 h2
    simp [handlerSubmitDatasetProofRoot, h1, h2]
  · intro a ha
    constructor
    · simp [handlerSubmitDatasetProofRoot, rootGoodEvm, ha]
    · simp [handlerSubmitDatasetProofRoot, rootGoodEvm, ha]
  · intro s s1 s2 s3 s4 tx sub2 h1 h2 h3 h4 h5
    simp [handlerSubmitDatasetProofRoot, h1, h2, h3, h4, h5]

/-- C4, witness: on the well-behaved ledger committing to address `0xa`,
two sequential calls produce one commitment then a no-op; on the ledger
whose submitter stays default, the committer submits and returns failure;
and on a ledger whose submitter is already `0xa`, nothing is submitted. -/
theorem C4_root_committer_idempotent_witness :
    (handlerSubmitDatasetProofRoot (rootGoodEvm "0xa")
        (DatasetProofSubmitInfo.new 1 .Source "" 4) dpTen "0xa"
      = .ok (true, "0xa", []))
    ∧ (handlerSubmitDatasetProofRoot (rootGoodEvm "0xa")
        (DatasetProofSubmitInfo.new 1 .Source "" 4) dpTen defaultEthAddress
      = .ok (true, "0xa", [mkRootTx (DatasetProofSubmitInfo.new 1 .Source "" 4) dpTen]))
    ∧ (handlerSubmitDatasetProofRoot rootFailEvm
        (DatasetProofSubmitInfo.new 1 .Source "" 4) dpTen ()
      = .ok (false, (), [mkRootTx (DatasetProofSubmitInfo.new 1 .Source "" 4) dpTen])) :=
  ⟨(C4_root_committer_idempotent (rootGoodEvm "0xa")
      (DatasetProofSubmitInfo.new 1 .Source "" 4) dpTen).1 "0xa" "0xa" "0xa"
      rfl (by decide),
   ((C4_root_committer_idempotent (rootGoodEvm "0xa")
      (DatasetProofSubmitInfo.new 1 .Source "" 4) dpTen).2.1 "0xa" (by decide)).1,
   (C4_root_committer_idempotent rootFailEvm
      (DatasetProofSubmitInfo.new 1 .Source "" 4) dpTen).2.2 () () () () ()
      ⟨0⟩ defaultEthAddress rfl rfl rfl rfl rfl⟩

/-- A ledger reporting every dataset proof as already completed. -/
def completedEvm : DatasetProofEvm Unit :=
  { isDatasetProofallCompleted := fun s _ _ => .ok (true, s)
    getDatasetProofSubmitter := fun s _ => .ok ("0xa", s)
    submitDatasetProofRoot := fun s _ => .ok (⟨0⟩, s)
    submitDatasetProof := fun s _ => .ok (⟨0⟩, s)
    waitForBlockHeight := fun s _ => .ok s
    getDatasetProofCount := fun s _ _ => .ok (0, s) }

/-- C5: when the ledger reports the target's proofs as all completed (and
the lock write behaves normally), `submitDatasetProof` submits no root
transaction and no chunk transaction — zero ledger mutations — and
returns success. -/
theorem C5_completed_target_noop {σ : Type} (evm : DatasetProofEvm σ) (fs0 : Fs)
    (datasetId : Nat) (dataType : DataType) (m : String) (dp : DatasetProof)
    (chunk : Nat) (s s' : σ) (fuel : Nat)
    (hdone : evm.isDatasetProofallCompleted s datasetId dataType = .ok (true, s'))
    (hlock : fs0.writeOk ((toString datasetId ++ dataType.str) ++ ".lock") = true) :
    (submitDatasetProof evm fs0 datasetId dataType m dp chunk s fuel).result = .ok true
    ∧ (submitDatasetProof evm fs0 datasetId dataType m dp chunk s fuel).rootTxs = []
    ∧ (submitDatasetProof evm fs0 datasetId dataType m dp chunk s fuel).chunkTxs = []
    ∧ (submitDatasetProof evm fs0 datasetId dataType m dp chunk s fuel).ledger = s' := by
  unfold submitDatasetProof checkSubmissionProofsCriteria
  simp [hdone, FileLock.new, FileLock.acquireLock, FileLock.releaseLock, hlock]

/-- C5, witness: on the all-completed ledger with a healthy filesystem, the
coordinator returns success with no root and no chunk transactions. -/
theorem C5_completed_target_noop_witness :
    (submitDatasetProof completedEvm (Fs.mk ∅ (fun _ => true) 0) 1 .Source "" dpTen 4 () 3).result
        = .ok true
    ∧ (submitDatasetProof completedEvm (Fs.mk ∅ (fun _ => true) 0) 1 .Source "" dpTen 4 () 3).rootTxs = []
    ∧ (submitDatasetProof completedEvm (Fs.mk ∅ (fun _ => true) 0) 1 .Source "" dpTen 4 () 3).chunkTxs = []
    ∧ (submitDatasetProof completedEvm (Fs.mk ∅ (fun _ => true) 0) 1 .Source "" dpTen 4 () 3).ledger = () :=
  C5_completed_target_noop completedEvm (Fs.mk ∅ (fun _ => true) 0) 1 .Source ""
    dpTen 4 () () 3 rfl rfl

/-- Acquire followed by release: exactly one unlink call, and the marker is
absent afterwards — whether or not the write succeeded, and whether or not
the marker pre-existed. -/
lemma acquire_release_fs (l : FileLock) (fs : Fs) :
    ((l.releaseLock (l.acquireLock fs).2).2.unlinkCalls = fs.unlinkCalls + 1)
    ∧ l.lockFilePath ∉ (l.releaseLock (l.acquireLock fs).2).2.files := by
  unfold FileLock.acquireLock FileLock.releaseLock
  cases h : fs.writeOk l.lockFilePath
  · simp [h]
    split <;> simp_all
  · simp [h]

/-- C10: every call of `submitDatasetProof` and of
`submitDatasetChallengeProofs` performs exactly one `releaseLock` unlink of
the marker file — on every path: criteria short-circuit, thrown ledger
error, or full run, and also when acquisition failed — and the unlink is
unconditional, so the marker file is absent from the final filesystem even
when it had been created by (and was still held by) a different process. -/
theorem C10_release_exactly_once {σ σ' : Type} (evmP : DatasetProofEvm σ)
    (evmC : DatasetChallengeEvm σ') (fs0 fs1 : Fs)
    (datasetId datasetId' : Nat) (dataType : DataType)
    (m path account : String) (dp : DatasetProof)
    (artifact : DatasetChallengeProof) (chunk : Nat) (s : σ) (s' : σ')
    (fuel : Nat) :
    ((submitDatasetProof evmP fs0 datasetId dataType m dp chunk s fuel).fs.unlinkCalls
        = fs0.unlinkCalls + 1
      ∧ ((toString datasetId ++ dataType.str) ++ ".lock")
          ∉ (submitDatasetProof evmP fs0 datasetId dataType m dp chunk s fuel).fs.files)
    ∧ ((submitDatasetChallengeProofs evmC fs1 datasetId' path account artifact s').fs.unlinkCalls
        = fs1.unlinkCalls + 1
      ∧ ((toString datasetId' ++ path) ++ ".lock")
          ∉ (submitDatasetChallengeProofs evmC fs1 datasetId' path account artifact s').fs.files) := by
  constructor
  · have h := acquire_release_fs (FileLock.new (toString datasetId ++ dataType.str)) fs0
    simpa [submitDatasetProof, FileLock.new] using h
  · have h := acquire_release_fs (FileLock.new (toString datasetId' ++ path)) fs1
    simpa [submitDatasetChallengeProofs, FileLock.new] using h

/-- A challenge ledger that records every (target, identity, seed) tuple as
already submitted. -/
def dupChallengeEvm : DatasetChallengeEvm Unit :=
  { isDatasetChallengeProofDuplicate := fun s _ _ _ => .ok (true, s)
    isWinner := fun s _ _ => .ok (true, s)
    submitDatasetChallengeProofs := fun s _ => .ok (⟨0⟩, s) }

/-- A concrete challenge artifact, for witnesses. -/
def artifactEx : DatasetChallengeProof :=
  { DatasetId := 1, RandomSeed := 7, Leaves := ["l"], Siblings := [["s"]], Paths := [0] }

/-- C8: with a normally behaving lock write, (1) if the ledger already
records the (target, identity, seed) tuple as submitted, the eligibility
check fails and `submitDatasetChallengeProofs` submits no challenge
transaction and returns false; (2) likewise when the identity does not hold
the winner role; (3) a challenge transaction is ever submitted only after
the duplicate query answered false and the winner query answered true —
both checks are evaluated before any state-mutating call. -/
theorem C8_challenge_eligibility_gate {σ : Type} (evm : DatasetChallengeEvm σ)
    (fs0 : Fs) (datasetId : Nat) (path account : String)
    (artifact : DatasetChallengeProof) (s : σ)
    (hlock : fs0.writeOk ((toString datasetId ++ path) ++ ".lock") = true) :
    (∀ s' : σ,
      evm.isDatasetChallengeProofDuplicate s datasetId account artifact.RandomSeed
          = .ok (true, s') →
      (submitDatasetChallengeProofs evm fs0 datasetId path account artifact s).result
          = .ok false
      ∧ (submitDatasetChallengeProofs evm fs0 datasetId path account artifact s).challengeTxs
          = []
      ∧ (submitDatasetChallengeProofs evm fs0 datasetId path account artifact s).ledger
          = s')
    ∧ (∀ s' s'' : σ,
      evm.isDatasetChallengeProofDuplicate s datasetId account artifact.RandomSeed
          = .ok (false, s') →
      evm.isWinner s' datasetId account = .ok (false, s'') →
      (submitDatasetChallengeProofs evm fs0 datasetId path account artifact s).result
          = .ok false
      ∧ (submitDatasetChallengeProofs evm fs0 datasetId path account artifact s).challengeTxs
          = []
      ∧ (submitDatasetChallengeProofs evm fs0 datasetId path account artifact s).ledger
          = s'')
    ∧ ((submitDatasetChallengeProofs evm fs0 datasetId path account artifact s).challengeTxs
          ≠ [] →
      ∃ s' s'' : σ,
        evm.isDatasetChallengeProofDuplicate s datasetId account artifact.RandomSeed
            = .ok (false, s')
        ∧ evm.isWinner s' datasetId account = .ok (true, s'')) := by
  refine ⟨?_, ?_, ?_⟩
  · intro s' h
    unfold submitDatasetChallengeProofs checkSubmissionChallengeProofsCriteria
    simp [h, FileLock.new, FileLock.acquireLock, FileLock.releaseLock, hlock]
  · intro s' s'' h1 h2
    unfold submitDatasetChallengeProofs checkSubmissionChallengeProofsCriteria
    simp [h1, h2, FileLock.new, FileLock.acquireLock, FileLock.releaseLock, hlock]
  · intro hne
    rcases hdup : evm.isDatasetChallengeProofDuplicate s datasetId account
      artifact.RandomSeed with e | ⟨b, s'⟩
    · exact absurd (by
        simp [submitDatasetChallengeProofs, checkSubmissionChallengeProofsCriteria, hdup])
        hne
    · cases b
      · rcases hwin : evm.isWinner s' datasetId account with e | ⟨w, s''⟩
        · exact absurd (by
            simp [submitDatasetChallengeProofs, checkSubmissionChallengeProofsCriteria,
              hdup, hwin]) hne
        · cases w
          · exact absurd (by
              simp [submitDatasetChallengeProofs, checkSubmissionChallengeProofsCriteria,
                hdup, hwin]) hne
          · exact ⟨s', s'', rfl, hwin⟩
      · exact absurd (by
          simp [submitDatasetChallengeProofs, checkSubmissionChallengeProofsCriteria,
            hdup]) hne

/-- C8, witness: on a ledger recording the tuple as already submitted, the
coordinator returns false with no challenge transaction. -/
theorem C8_challenge_eligibility_gate_witness :
    (submitDatasetChallengeProofs dupChallengeEvm (Fs.mk ∅ (fun _ => true) 0)
        1 "p" "0xa" artifactEx ()).result = .ok false
    ∧ (submitDatasetChallengeProofs dupChallengeEvm (Fs.mk ∅ (fun _ => true) 0)
        1 "p" "0xa" artifactEx ()).challengeTxs = []
    ∧ (submitDatasetChallengeProofs dupChallengeEvm (Fs.mk ∅ (fun _ => true) 0)
        1 "p" "0xa" artifactEx ()).ledger = () :=
  (C8_challenge_eligibility_gate dupChallengeEvm (Fs.mk ∅ (fun _ => true) 0)
    1 "p" "0xa" artifactEx () rfl).1 () rfl

/-- C7, counterexample: with a filesystem on which the lock write fails
(and no marker present), `acquireLock` returns false, yet the call does not
merely log and return the body's result: the unconditional `releaseLock` in
the `finally` block throws `ENOENT`, which replaces the body's outcome — the
same call with a healthy filesystem returns `ok true`.  So a failed
acquisition does cause the call to abort with a thrown error. -/
theorem C7_counterexample :
    ((FileLock.new (toString 1 ++ DataType.str .Source)).acquireLock
        (Fs.mk ∅ (fun _ => false) 0)).1 = false
    ∧ (submitDatasetProof completedEvm (Fs.mk ∅ (fun _ => false) 0)
        1 .Source "" dpTen 4 () 3).result = .error "ENOENT"
    ∧ (submitDatasetProof completedEvm (Fs.mk ∅ (fun _ => true) 0)
        1 .Source "" dpTen 4 () 3).result = .ok true := by
  refine ⟨rfl, ?_, ?_⟩ <;>
    simp [submitDatasetProof, checkSubmissionProofsCriteria, completedEvm,
      FileLock.new, FileLock.acquireLock, FileLock.releaseLock]

/-- C7, amended: a failed lock acquisition never short-circuits the
submission — the ledger interactions, submitted transactions and the body's
ledger outcome are entirely independent of the filesystem and of the
acquisition result, exactly as the warn-and-continue code intends; however,
the failed acquisition is not wholly inert: when the marker file is absent
at exit (the typical aftermath of a failed acquire), the unconditional
`releaseLock` in the `finally` block throws `ENOENT`, which replaces the
body's result, so the call as a whole can end in a thrown error even though
the full submission path executed. -/
theorem C7_lock_failure_nonfatal {σ σ' : Type} (evmP : DatasetProofEvm σ)
    (evmC : DatasetChallengeEvm σ') (fs0 fs1 : Fs)
    (datasetId datasetId' : Nat) (dataType : DataType)
    (m path account : String) (dp : DatasetProof)
    (artifact : DatasetChallengeProof) (chunk : Nat) (s : σ) (s' : σ')
    (fuel : Nat) :
    ((submitDatasetProof evmP fs0 datasetId dataType m dp chunk s fuel).ledger
        = (submitDatasetProof evmP fs1 datasetId dataType m dp chunk s fuel).ledger
      ∧ (submitDatasetProof evmP fs0 datasetId dataType m dp chunk s fuel).rootTxs
        = (submitDatasetProof evmP fs1 datasetId dataType m dp chunk s fuel).rootTxs
      ∧ (submitDatasetProof evmP fs0 datasetId dataType m dp chunk s fuel).chunkTxs
        = (submitDatasetProof evmP fs1 datasetId dataType m dp chunk s fuel).chunkTxs
      ∧ (submitDatasetChallengeProofs evmC fs0 datasetId' path account artifact s').ledger
        = (submitDatasetChallengeProofs evmC fs1 datasetId' path account artifact s').ledger
      ∧ (submitDatasetChallengeProofs evmC fs0 datasetId' path account artifact s').challengeTxs
        = (submitDatasetChallengeProofs evmC fs1 datasetId' path account artifact s').challengeTxs)
    ∧ (fs0.writeOk ((toString datasetId ++ dataType.str) ++ ".lock") = false →
      ((toString datasetId ++ dataType.str) ++ ".lock") ∉ fs0.files →
      (submitDatasetProof evmP fs0 datasetId dataType m dp chunk s fuel).result
        = .error "ENOENT")
    ∧ (fs0.writeOk ((toString datasetId' ++ path) ++ ".lock") = false →
      ((toString datasetId' ++ path) ++ ".lock") ∉ fs0.files →
      (submitDatasetChallengeProofs evmC fs0 datasetId' path account artifact s').result
        = .error "ENOENT") := by
  refine ⟨⟨rfl, rfl, rfl, rfl, rfl⟩, ?_, ?_⟩
  · intro h1 h2
    simp [submitDatasetProof, FileLock.new, FileLock.acquireLock,
      FileLock.releaseLock, h1, h2]
  · intro h1 h2
    simp [submitDatasetChallengeProofs, FileLock.new, FileLock.acquireLock,
      FileLock.releaseLock, h1, h2]

/-- C7, witness: concrete filesystems with a failing lock write — the runs
coincide on ledger effects, and both coordinators end in the thrown
`ENOENT`. -/
theorem C7_lock_failure_nonfatal_witness :
    ((submitDatasetProof completedEvm (Fs.mk ∅ (fun _ => false) 0) 1 .Source "" dpTen 4 () 3).ledger
        = (submitDatasetProof completedEvm (Fs.mk ∅ (fun _ => true) 0) 1 .Source "" dpTen 4 () 3).ledger
      ∧ (submitDatasetProof completedEvm (Fs.mk ∅ (fun _ => false) 0) 1 .Source "" dpTen 4 () 3).rootTxs
        = (submitDatasetProof completedEvm (Fs.mk ∅ (fun _ => true) 0) 1 .Source "" dpTen 4 () 3).rootTxs
      ∧ (submitDatasetProof completedEvm (Fs.mk ∅ (fun _ => false) 0) 1 .Source "" dpTen 4 () 3).chunkTxs
        = (submitDatasetProof completedEvm (Fs.mk ∅ (fun _ => true) 0) 1 .Source "" dpTen 4 () 3).chunkTxs
      ∧ (submitDatasetChallengeProofs dupChallengeEvm (Fs.mk ∅ (fun _ => false) 0) 1 "p" "0xa" artifactEx ()).ledger
        = (submitDatasetChallengeProofs dupChallengeEvm (Fs.mk ∅ (fun _ => true) 0) 1 "p" "0xa" artifactEx ()).ledger
      ∧ (submitDatasetChallengeProofs dupChallengeEvm (Fs.mk ∅ (fun _ => false) 0) 1 "p" "0xa" artifactEx ()).challengeTxs
        = (submitDatasetChallengeProofs dupChallengeEvm (Fs.mk ∅ (fun _ => true) 0) 1 "p" "0xa" artifactEx ()).challengeTxs)
    ∧ ((submitDatasetProof completedEvm (Fs.mk ∅ (fun _ => false) 0) 1 .Source "" dpTen 4 () 3).result
        = .error "ENOENT")
    ∧ ((submitDatasetChallengeProofs dupChallengeEvm (Fs.mk ∅ (fun _ => false) 0) 1 "p" "0xa" artifactEx ()).result
        = .error "ENOENT") :=
  ⟨(C7_lock_failure_nonfatal completedEvm dupChallengeEvm (Fs.mk ∅ (fun _ => false) 0)
      (Fs.mk ∅ (fun _ => true) 0) 1 1 .Source "" "p" "0xa" dpTen artifactEx 4 () () 3).1,
   (C7_lock_failure_nonfatal completedEvm dupChallengeEvm (Fs.mk ∅ (fun _ => false) 0)
      (Fs.mk ∅ (fun _ => true) 0) 1 1 .Source "" "p" "0xa" dpTen artifactEx 4 () () 3).2.1
      rfl (by decide),
   (C7_lock_failure_nonfatal completedEvm dupChallengeEvm (Fs.mk ∅ (fun _ => false) 0)
      (Fs.mk ∅ (fun _ => true) 0) 1 1 .Source "" "p" "0xa" dpTen artifactEx 4 () () 3).2.2
      rfl (by decide)⟩

end DataswapShed
